import Mathlib

/-!
Verification development for the Spotify deck-controller plugin
(`utils/SpotifyController.py`): OAuth token lifecycle (`Token`,
`AuthController`), the retry-wrapped request helper
(`spotify_api_request_handler`), and the playback-state polling /
notification machinery of `SpotifyController`.

Python JSON values (the playback-state records and token-endpoint bodies)
are embedded as the inductive `JVal`, where `JVal.null` plays the role of
the Python value `None` (which is what `json` produces for JSON `null`).
Fallible Python code (attribute errors escaping a method) is embedded in
`Except Unit`; an `Except.error ()` result marks an uncaught exception.
-/

/-- A Python value as produced by `response.json()`: `null` is Python
`None`, objects are insertion-ordered key/value lists (Python dicts). -/
inductive JVal where
  | null : JVal
  | bool (b : Bool) : JVal
  | int (n : Int) : JVal
  | str (s : String) : JVal
  | arr (xs : List JVal) : JVal
  | obj (fields : List (String × JVal)) : JVal

/-- `v is None` in Python. -/
def JVal.isNull : JVal → Bool
  | .null => true
  | _ => false

/-- Python truthiness: `None`, `False`, `0`, `""`, `[]`, `{}` are falsy. -/
def JVal.truthy : JVal → Bool
  | .null => false
  | .bool b => b
  | .int n => n != 0
  | .str s => !(s == "")
  | .arr xs => !xs.isEmpty
  | .obj fs => !fs.isEmpty

/-- `isinstance(v, dict)`. -/
def JVal.isObj : JVal → Bool
  | .obj _ => true
  | _ => false

/-- `isinstance(v, list)`. -/
def JVal.isArr : JVal → Bool
  | .arr _ => true
  | _ => false

/-- `isinstance(v, int)`: Python `bool` is a subclass of `int`. -/
def JVal.isPyInt : JVal → Bool
  | .int _ => true
  | .bool _ => true
  | _ => false

/-- The integer value of a Python int (with `True = 1`, `False = 0`). -/
def JVal.pyToInt : JVal → Int
  | .int n => n
  | .bool b => if b then 1 else 0
  | _ => 0

mutual

/-- Python `==` on JSON values: `True == 1`, `False == 0`; lists compare
elementwise; dicts compare key by key (our dicts keep unique keys in
insertion order, so positional key/value comparison models dict equality
for the records the controller handles). -/
def pyEq : JVal → JVal → Bool
  | .null, .null => true
  | .bool a, .bool b => a == b
  | .bool a, .int n => (if a then (1 : Int) else 0) == n
  | .int n, .bool b => n == (if b then (1 : Int) else 0)
  | .int a, .int b => a == b
  | .str a, .str b => a == b
  | .arr a, .arr b => pyEqList a b
  | .obj a, .obj b => pyEqFields a b
  | _, _ => false

/-- Elementwise Python `==` on lists. -/
def pyEqList : List JVal → List JVal → Bool
  | [], [] => true
  | x :: xs, y :: ys => pyEq x y && pyEqList xs ys
  | _, _ => false

/-- Entrywise Python `==` on dict entries. -/
def pyEqFields : List (String × JVal) → List (String × JVal) → Bool
  | [], [] => true
  | (k, v) :: xs, (k2, w) :: ys => k == k2 && pyEq v w && pyEqFields xs ys
  | _, _ => false

end

/-- Python `d.get(k)`: the stored value (`None` when the key is absent) on a
dict, an `AttributeError` on any non-dict receiver. -/
def pyGet : JVal → String → Except Unit JVal
  | .obj fs, k => .ok ((fs.lookup k).getD .null)
  | _, _ => .error ()

/-- Python `d.get(k, default)`: the stored value if the key is present
(even when that value is `None`), the default when absent; an
`AttributeError` on a non-dict receiver. -/
def pyGetD : JVal → String → JVal → Except Unit JVal
  | .obj fs, k, d => .ok ((fs.lookup k).getD d)
  | _, _, _ => .error ()

/-- Total field read: value of key `k` when `v` is a dict holding it,
`null` otherwise (used for spec-side statements). -/
def jfield (v : JVal) (k : String) : JVal :=
  match v with
  | .obj fs => (fs.lookup k).getD .null
  | _ => .null

/-! ## Token (`utils/SpotifyController.py`, class `Token`)

Time is modelled as an integer count of seconds; `now` is passed
explicitly where the Python code calls `datetime.datetime.now()`. -/

/-- The `Token` value object: a bearer credential and its absolute expiry
instant. -/
structure Token where
  token_string : JVal
  expires_at : Int

/-- `Token.__init__`: `expires_at = now + max(0, expires_in - 60)`
(a 60-second safety buffer, clamped at zero). -/
def Token.init (token_string : JVal) (expires_in : Int) (now : Int) : Token :=
  { token_string := token_string, expires_at := now + max 0 (expires_in - 60) }

/-- `Token.is_valid`: `datetime.datetime.now() < self.expires_at`. -/
def Token.is_valid (t : Token) (now : Int) : Bool :=
  now < t.expires_at

/-! ## AuthController (`utils/SpotifyController.py`, class `AuthController`)

The host settings store is a key/value map; `plugin_base.on_save` is
modelled by returning the list of settings snapshots that were persisted
during a call. The outcome of the (retry-decorated)
`_request_token_from_spotify` call, as seen by its callers, is an explicit
environment value `TokenReqResult`. -/

/-- The settings store (`plugin_base.get_settings()`), a string-keyed
dict; `none` = key absent. -/
def Settings : Type := String → Option JVal

/-- `self.settings.get(k)`: `None` when absent. -/
def settingsGet (s : Settings) (k : String) : JVal :=
  (s k).getD .null

/-- `self.settings[k] = v`. -/
def settingsSet (s : Settings) (k : String) (v : JVal) : Settings :=
  fun k2 => if k2 = k then some v else s k2

/-- `del self.settings[k]`. -/
def settingsDel (s : Settings) (k : String) : Settings :=
  fun k2 => if k2 = k then none else s k2

/-- `k in self.settings`. -/
def settingsHas (s : Settings) (k : String) : Bool :=
  (s k).isSome

/-- The mutable state of an `AuthController`: the cached `Token` (or
`None`) and the settings store. -/
structure AuthState where
  access_token_obj : Option Token
  settings : Settings

/-- Outcome of `self._request_token_from_spotify(data)` as observed by its
callers, after the retry decorator has run:
* `success body` — a response was returned; `body` is what
  `response.json()` yields (`.error ()` when the body is not JSON, which
  raises `ValueError`);
* `reqError r` — a `requests.RequestException` was raised; `r` carries
  `(status, body-json)` of `e.response` when that is not `None`;
* `valueError` — a `ValueError` was raised (e.g. missing client secret
  inside `_request_token_from_spotify`). -/
inductive TokenReqResult where
  | success (body : Except Unit JVal)
  | reqError (response : Option (Nat × Except Unit JVal))
  | valueError

/-- `AuthController._process_token_response(response_data, grant_type)`.
Returns (result, new state, list of persisted settings snapshots); an
`Except.error` is an exception escaping the method (Python raises
`AttributeError` when `response_data` is not a dict). -/
def process_token_response (st : AuthState) (now : Int) (response_data : JVal)
    (grant_type : String) : Except Unit (Bool × AuthState × List Settings) := do
  let access_token_str ← pyGet response_data "access_token"
  let expires_in ← pyGet response_data "expires_in"
  if !access_token_str.truthy || !expires_in.isPyInt then
    return (false, st, [])
  let st1 : AuthState :=
    { st with access_token_obj := some (Token.init access_token_str expires_in.pyToInt now) }
  let new_refresh_token ← pyGet response_data "refresh_token"
  let st2 : AuthState :=
    if new_refresh_token.truthy then
      { st1 with settings := settingsSet st1.settings "client_refresh_token" new_refresh_token }
    else st1
  let st3 : AuthState :=
    if grant_type == "authorization_code" && settingsHas st2.settings "client_authorization" then
      { st2 with settings := settingsDel st2.settings "client_authorization" }
    else st2
  return (true, st3, [st3.settings])

/-- `AuthController.exchange_code_for_token(authorization_code)`.
`requests.RequestException` and `ValueError` are caught and turn into a
`False` return; anything `_process_token_response` raises propagates. -/
def exchange_code_for_token (st : AuthState) (now : Int) (authorization_code : JVal)
    (env : TokenReqResult) : Except Unit (Bool × AuthState × List Settings) :=
  if !authorization_code.truthy then .ok (false, st, [])
  else if !(settingsGet st.settings "client_id").truthy then .ok (false, st, [])
  else
    match env with
    | .success (.ok body) => process_token_response st now body "authorization_code"
    | .success (.error _) => .ok (false, st, [])
    | .reqError _ => .ok (false, st, [])
    | .valueError => .ok (false, st, [])

/-- `AuthController.refresh_access_token()`. On a caught
`RequestException` whose response has status 400 and a JSON body with
`error == "invalid_grant"`, the stored refresh token is set to `None` and
the settings are persisted; note that `e.response.json()` (and `.get` on a
non-dict payload) runs inside the `except` block, so its own failures
propagate out of the method. -/
def refresh_access_token (st : AuthState) (now : Int) (env : TokenReqResult) :
    Except Unit (Bool × AuthState × List Settings) :=
  if !(settingsGet st.settings "client_refresh_token").truthy then .ok (false, st, [])
  else if !(settingsGet st.settings "client_id").truthy then .ok (false, st, [])
  else
    match env with
    | .success (.ok body) => process_token_response st now body "refresh_token"
    | .success (.error _) => .ok (false, st, [])
    | .valueError => .ok (false, st, [])
    | .reqError none => .ok (false, st, [])
    | .reqError (some (status, bodyE)) =>
      if status == 400 then
        match bodyE with
        | .error _ => .error ()
        | .ok payload =>
          match pyGet payload "error" with
          | .error _ => .error ()
          | .ok errv =>
            if pyEq errv (.str "invalid_grant") then
              let s2 := settingsSet st.settings "client_refresh_token" .null
              .ok (false, { st with settings := s2 }, [s2])
            else .ok (false, st, [])
      else .ok (false, st, [])

/-- `self.access_token_obj and self.access_token_obj.is_valid` — whether a
valid cached token exists at instant `now`. -/
def hasValidToken (st : AuthState) (now : Int) : Bool :=
  match st.access_token_obj with
  | some tok => tok.is_valid now
  | none => false

/-- The refresh branch of `AuthController.get_valid_token_string`. -/
def get_valid_token_string_refresh (st : AuthState) (now : Int) (env : TokenReqResult) :
    Except Unit (JVal × AuthState × List Settings) := do
  let (refreshed, st2, saves) ← refresh_access_token st now env
  if refreshed then
    match st2.access_token_obj with
    | some tok =>
      if tok.is_valid now then return (tok.token_string, st2, saves)
      else return (.null, st2, saves)
    | none => return (.null, st2, saves)
  else return (.null, st2, saves)

/-- `AuthController.get_valid_token_string()`: the cached token string if
still valid, otherwise the result of a refresh attempt, `None` on
failure. -/
def get_valid_token_string (st : AuthState) (now : Int) (env : TokenReqResult) :
    Except Unit (JVal × AuthState × List Settings) :=
  match st.access_token_obj with
  | some tok =>
    if tok.is_valid now then .ok (tok.token_string, st, [])
    else get_valid_token_string_refresh st now env
  | none => get_valid_token_string_refresh st now env

/-! ## Retry wrapper (`spotify_api_request_handler`)

The decorated function is modelled by an environment `env : Nat → Attempt`
giving the outcome of each attempt, and the `random.uniform(-jf, jf)`
samples by `jit : Nat → ℚ` (theorems carry the bound `|jit i| ≤ jf`).
The wrapper returns its result together with the list of `time.sleep`
durations it performed, in order. -/

/-- The parameters of `spotify_api_request_handler`, with their Python
defaults. -/
structure RetryConfig where
  max_retries : Nat := 3
  initial_backoff : ℚ := 1
  max_backoff : ℚ := 10
  jitter_factor : ℚ := 1 / 10

/-- Outcome of one call of the decorated function:
* `value` — a non-`requests.Response` return value;
* `resp s` — a `requests.Response` with status code `s`
  (`raise_for_status` raises `HTTPError` exactly when `400 ≤ s < 600`);
* `transport` — a `requests.RequestException` such as a timeout or
  connection error (no usable response attached). -/
inductive Attempt where
  | value
  | resp (status : Nat)
  | transport

/-- An exception surfaced by the wrapper. -/
inductive RetryError where
  | http (status : Nat)
  | transport
  | runtime
  deriving DecidableEq

/-- What the wrapper produced: the non-response value passed through, a
returned response, or a raised exception. -/
inductive RetryResult where
  | val
  | ok (status : Nat)
  | raised (e : RetryError)
  deriving DecidableEq

/-- The retry loop of `spotify_api_request_handler`: `remaining` attempts
left, `a` the index of the current attempt, `backoff` the current backoff,
`last` the last recorded exception. Mirrors the Python `for attempt in
range(max_retries)` body: 4xx statuses other than 429 re-raise at once;
other HTTP errors and transport errors record the failure and, except
after the final attempt, sleep `backoff + jit * backoff` and double the
backoff, capped at `maxB` (the final failing attempt raises the recorded
failure directly, which is what the exhausted Python loop does with
`last_exception`); a loop that never ran raises `RuntimeError`. -/
def retryGo (maxB : ℚ) (env : Nat → Attempt) (jit : Nat → ℚ) :
    Nat → Nat → ℚ → Option RetryError → RetryResult × List ℚ
  | 0, _, _, last =>
    (match last with
     | some e => .raised e
     | none => .raised .runtime, [])
  | r + 1, a, backoff, _ =>
    match env a with
    | .value => (.val, [])
    | .resp s =>
      if 400 ≤ s ∧ s < 600 then
        if s < 500 ∧ s ≠ 429 then (.raised (.http s), [])
        else
          match r with
          | 0 => (.raised (.http s), [])
          | _ + 1 =>
            let rest := retryGo maxB env jit r (a + 1)
              (min (backoff * 2) maxB) (some (.http s))
            (rest.1, (backoff + jit a * backoff) :: rest.2)
      else (.ok s, [])
    | .transport =>
      match r with
      | 0 => (.raised .transport, [])
      | _ + 1 =>
        let rest := retryGo maxB env jit r (a + 1)
          (min (backoff * 2) maxB) (some .transport)
        (rest.1, (backoff + jit a * backoff) :: rest.2)

/-- `spotify_api_request_handler(...)` applied to a function whose attempt
outcomes are given by `env`. -/
def spotify_api_request_handler (cfg : RetryConfig) (env : Nat → Attempt)
    (jit : Nat → ℚ) : RetryResult × List ℚ :=
  retryGo cfg.max_backoff env jit cfg.max_retries 0 cfg.initial_backoff none

/-! ## SpotifyController request and control surface -/

/-- Outcome of `self._make_api_request(...)` as seen by its caller:
`raised` a `requests.RequestException` escaped the retry wrapper,
`noResp` the helper returned `None` (no valid token), `resp s` a response
with status `s` was returned. -/
inductive ApiResult where
  | raised
  | noResp
  | resp (status : Nat)
  deriving DecidableEq

/-- `SpotifyController._control_playback`: `True` exactly when the request
returned a response with status 204; `RequestException`s are caught and
give `False`. -/
def control_playback : ApiResult → Bool
  | .raised => false
  | .noResp => false
  | .resp s => s == 204

/-- `SpotifyController.set_volume(volume_percent)`: clamps to `[0, 100]`
via `min(max(volume_percent, 0), 100)`; `api` maps the issued
`volume_percent` parameter to the outcome of the PUT. Returns the clamped
value actually sent, and the success flag. -/
def set_volume (api : Int → ApiResult) (volume_percent : Int) : Int × Bool :=
  let limited_volume := min (max volume_percent 0) 100
  (limited_volume, control_playback (api limited_volume))

/-- `SpotifyController._get_current_or_fresh_state(provided_state)`:
the provided state if truthy, else the cached `latest_playback_state` if
truthy, else the result `fetch` of `get_playback_state()`. -/
def get_current_or_fresh_state (latest fetch provided : JVal) : JVal :=
  if provided.truthy then provided
  else if latest.truthy then latest
  else fetch

/-- `SpotifyController.get_shuffle_state(state)`:
`current_state.get("shuffle_state") if current_state else None`. -/
def get_shuffle_state (latest fetch provided : JVal) : Except Unit JVal :=
  let current_state := get_current_or_fresh_state latest fetch provided
  if current_state.truthy then pyGet current_state "shuffle_state" else .ok .null

/-- `SpotifyController.toggle_shuffle()`: reads the shuffle state from the
cache (passing `self.latest_playback_state` as the provided state), on
`None` retries with no provided state (`fetch2` is what a fresh
`get_playback_state()` would yield), gives up with `None` when still
undetermined, otherwise PUTs the negation. Returns (return value,
`some target` when a PUT with that target state was issued). -/
def toggle_shuffle (latest fetch1 fetch2 : JVal) (put : ApiResult) :
    Except Unit (JVal × Option Bool) := do
  let s1 ← get_shuffle_state latest fetch1 latest
  let current_shuffle_state ←
    if s1.isNull then get_shuffle_state latest fetch2 .null else pure s1
  if current_shuffle_state.isNull then
    return (.null, none)
  let new_target_state_bool := !current_shuffle_state.truthy
  let success := control_playback put
  return (if success then .bool new_target_state_bool else .null, some new_target_state_bool)

/-- `SpotifyController.get_playback_art_url(state)`: resolves the state,
then the defensive chain over `item`, `album`, `images`, `images[0]`,
`url` with `isinstance` checks. -/
def get_playback_art_url (latest fetch provided : JVal) : Except Unit JVal := do
  let current_state := get_current_or_fresh_state latest fetch provided
  if !current_state.truthy then return .null
  let item ← pyGet current_state "item"
  if !item.isObj then return .null
  let album ← pyGet item "album"
  if !album.isObj then return .null
  let images ← pyGet album "images"
  match images with
  | .arr (image_obj :: _) =>
    if image_obj.isObj then pyGet image_obj "url" else return .null
  | _ => return .null

/-! ## Polling change detection and notification fan-out -/

/-- Monadic short-circuit `or`, the value semantics of a Python
`a or b` chain whose disjuncts may raise. -/
def orE (x y : Except Unit Bool) : Except Unit Bool :=
  match x with
  | .ok true => .ok true
  | .ok false => y
  | .error e => .error e

/-- One disjunct `new_state.get(k) != self.latest_playback_state.get(k)`
of the change test (`new` read first, as in the source). -/
def cmpField (latest new : JVal) (k : String) : Except Unit Bool := do
  let a ← pyGet new k
  let b ← pyGet latest k
  return !pyEq a b

/-- One disjunct
`new_state.get(k, {}).get(sub) != self.latest_playback_state.get(k, {}).get(sub)`
of the change test. -/
def cmpSubField (latest new : JVal) (k sub : String) : Except Unit Bool := do
  let ni ← pyGetD new k (.obj [])
  let a ← pyGet ni sub
  let li ← pyGetD latest k (.obj [])
  let b ← pyGet li sub
  return !pyEq a b

/-- The multi-field change condition of
`SpotifyController._perform_update_and_notify` (the branch taken when
`new_state is not None`): `self.latest_playback_state is None or` the
seven field comparisons, in source order, with Python short-circuiting. -/
def changeTest (latest new : JVal) : Except Unit Bool :=
  if latest.isNull then .ok true
  else
    orE (cmpField latest new "timestamp")
      (orE (cmpSubField latest new "item" "id")
        (orE (cmpField latest new "is_playing")
          (orE (cmpField latest new "shuffle_state")
            (orE (cmpField latest new "repeat_state")
              (orE (cmpSubField latest new "device" "id")
                (cmpSubField latest new "device" "volume_percent"))))))

/-- `SpotifyController._perform_update_and_notify()`, given the cached
state `latest`, the freshly fetched state `new` (`JVal.null` when
`get_playback_state()` yielded no state) and the registered callbacks.
Returns the new cached state and the list of `GLib.idle_add(callback,
state)` notifications scheduled, in registration order; `.error ()` is an
uncaught exception from the field comparisons. -/
def perform_update_and_notify (latest new : JVal) (callbacks : List Nat) :
    Except Unit (JVal × List (Nat × JVal)) :=
  if !new.isNull then
    match changeTest latest new with
    | .error e => .error e
    | .ok true => .ok (new, callbacks.map fun c => (c, new))
    | .ok false => .ok (latest, [])
  else if !latest.isNull then
    .ok (.null, callbacks.map fun c => (c, JVal.null))
  else
    .ok (latest, [])

/-- Modelled from the spec: the change condition in the words of the spec
— a notification round fires iff the two snapshots differ in at least one
of `timestamp`, `item.id`, `is_playing`, `shuffle_state`, `repeat_state`,
`device.id`, `device.volume_percent`, or exactly one of them is
unavailable; two identical snapshots, or unavailable followed by
unavailable, never fire. Field access follows the same Python dict
semantics as the code, so the comparison can raise on ill-typed
`item`/`device` fields. -/
def specChanged (prev new : JVal) : Except Unit Bool :=
  if prev.isNull && new.isNull then .ok false
  else if prev.isNull != new.isNull then .ok true
  else
    orE (cmpField prev new "timestamp")
      (orE (cmpSubField prev new "item" "id")
        (orE (cmpField prev new "is_playing")
          (orE (cmpField prev new "shuffle_state")
            (orE (cmpField prev new "repeat_state")
              (orE (cmpSubField prev new "device" "id")
                (cmpSubField prev new "device" "volume_percent"))))))

/-- Modelled from the spec: the defensive chained extraction
`item.album.images[0].url` — the `url` entry of the first image when
`item` and `album` are objects, `images` a nonempty array whose head is an
object; `None` at any missing link. -/
def specArtUrl (state : JVal) : JVal :=
  let item := jfield state "item"
  if !item.isObj then .null
  else
    let album := jfield item "album"
    if !album.isObj then .null
    else
      match jfield album "images" with
      | .arr (image_obj :: _) => if image_obj.isObj then jfield image_obj "url" else .null
      | _ => .null

/-- The `item`/`device` entries of a record, when present, are dicts — the
domain on which the change comparison of the polling loop cannot raise. -/
def comparison_safe (v : JVal) : Bool :=
  match v with
  | .obj fs =>
    (match fs.lookup "item" with
     | none => true
     | some x => x.isObj) &&
    (match fs.lookup "device" with
     | none => true
     | some x => x.isObj)
  | _ => false

/-- `SpotifyController.register_update_callback(callback)` (callbacks are
identified by a key with Python identity equality): appends the callback
when not already present, and schedules one `GLib.idle_add(callback,
latest_playback_state)` delivery when a cached state is not `None`.
Returns the new registry and the scheduled deliveries. -/
def register_update_callback (update_callbacks : List Nat)
    (latest_playback_state : JVal) (callback : Nat) :
    List Nat × List (Nat × JVal) :=
  if !update_callbacks.contains callback then
    (update_callbacks ++ [callback],
     if !latest_playback_state.isNull then [(callback, latest_playback_state)] else [])
  else
    (update_callbacks, [])

/-! ## Claim theorems -/

/-- C4 counterexample: the claim asserts that for every `expiresIn ≥ 60` a
freshly constructed Token is valid immediately after construction, but at
`expiresIn = 60` the expiry instant equals the construction instant and
`is_valid` (a strict comparison) is already false at construction. -/
theorem c4_counterexample :
    (60 : Int) ≤ 60 ∧ (Token.init (.str "t") 60 0).is_valid 0 = false := by
  constructor
  · norm_num
  · decide

/-- C4 (amended): for `expiresIn ≥ 60`, `is_valid` at instant `now` holds
exactly when `now < issue time + (expiresIn − 60)`; hence a Token built
with `expiresIn > 60` (strictly) is valid immediately after construction,
and any Token built with `expiresIn ≥ 60` is invalid from
`issue time + (expiresIn − 60)` on. -/
theorem c4_token_buffer_amended (s : JVal) (e t0 : Int) :
    (60 ≤ e → ∀ now : Int, ((Token.init s e t0).is_valid now = true ↔ now < t0 + (e - 60))) ∧
    (60 < e → (Token.init s e t0).is_valid t0 = true) ∧
    (60 ≤ e → ∀ now : Int, t0 + (e - 60) ≤ now → (Token.init s e t0).is_valid now = false) := by
  refine ⟨fun h now => ?_, fun h => ?_, fun h now hn => ?_⟩ <;>
    simp [Token.init, Token.is_valid] <;> omega

/-- C4 witness: a Token with `expiresIn = 3600` built at instant 0 is
valid at instant 0 and invalid at instant 3540. -/
theorem c4_witness :
    (Token.init (.str "t") 3600 0).is_valid 0 = true ∧
    (Token.init (.str "t") 3600 0).is_valid 3540 = false := by
  refine ⟨(c4_token_buffer_amended (.str "t") 3600 0).2.1 (by norm_num),
    (c4_token_buffer_amended (.str "t") 3600 0).2.2 (by norm_num) 3540 (by norm_num)⟩

/-- C10: for every `expiresIn ≤ 60` (zero and negative included) the
constructed Token has `expires_at` equal to the construction instant — the
buffer subtraction is clamped at zero — so the Token is invalid at every
instant at or after construction. -/
theorem c10_small_expiry_clamped (s : JVal) (e t0 : Int) (h : e ≤ 60) :
    (Token.init s e t0).expires_at = t0 ∧
    ∀ now : Int, t0 ≤ now → (Token.init s e t0).is_valid now = false := by
  constructor
  · simp [Token.init]; omega
  · intro now hn
    simp [Token.init, Token.is_valid]
    omega

/-- C10 witness: a Token built at instant 5 with negative `expiresIn`
expires at instant 5 and is invalid there. -/
theorem c10_witness :
    (Token.init (.str "t") (-30) 5).expires_at = 5 ∧
    (Token.init (.str "t") (-30) 5).is_valid 5 = false :=
  ⟨(c10_small_expiry_clamped (.str "t") (-30) 5 (by norm_num)).1,
   (c10_small_expiry_clamped (.str "t") (-30) 5 (by norm_num)).2 5 (by norm_num)⟩

/-- C9: `set_volume` always sends a `volume_percent` clamped into
`[0, 100]` — in particular 150 is sent as 100 and −20 as 0 — and returns
success exactly when the issued HTTP call completed with status 204. -/
theorem c9_set_volume_clamps :
    (∀ (api : Int → ApiResult) (p : Int),
       0 ≤ (set_volume api p).1 ∧ (set_volume api p).1 ≤ 100 ∧
       ((set_volume api p).2 = true ↔ api (set_volume api p).1 = .resp 204)) ∧
    (∀ api : Int → ApiResult, (set_volume api 150).1 = 100 ∧ (set_volume api (-20)).1 = 0) := by
  constructor
  · intro api p
    refine ⟨by simp [set_volume], by simp [set_volume], ?_⟩
    simp only [set_volume]
    cases h : api (min (max p 0) 100) with
    | raised => simp [control_playback, h]
    | noResp => simp [control_playback, h]
    | resp s => simp [control_playback, h]
  · intro api
    constructor <;> simp [set_volume]

/-- C7: registering an already-registered callback leaves the registry
unchanged (no duplicates can ever enter, identity equality); registering a
new callback while a cached state is not `None` appends it and schedules
exactly one immediate delivery of that state to it; with a `None` cache
nothing is scheduled; registration preserves registry distinctness. -/
theorem c7_register_idempotent (cbs : List Nat) (latest : JVal) (cb : Nat) :
    (cb ∈ cbs → register_update_callback cbs latest cb = (cbs, [])) ∧
    (cb ∉ cbs → latest.isNull = false →
       register_update_callback cbs latest cb = (cbs ++ [cb], [(cb, latest)])) ∧
    (cb ∉ cbs → latest.isNull = true →
       register_update_callback cbs latest cb = (cbs ++ [cb], [])) ∧
    (cbs.Nodup → (register_update_callback cbs latest cb).1.Nodup) := by
  refine ⟨fun hmem => ?_, fun hmem hn => ?_, fun hmem hn => ?_, fun hnd => ?_⟩
  · simp [register_update_callback, hmem]
  · simp [register_update_callback, hmem, hn]
  · simp [register_update_callback, hmem, hn]
  · by_cases hmem : cb ∈ cbs
    · simp [register_update_callback, hmem, hnd]
    · simp [register_update_callback, hmem, List.nodup_append, hnd]

/-- C7 witness: registering callback 3 into registry `[1, 2]` while a
state is cached appends it and schedules one delivery of that state. -/
theorem c7_witness :
    register_update_callback [1, 2] (.obj [("is_playing", .bool true)]) 3 =
      ([1, 2, 3], [(3, .obj [("is_playing", .bool true)])]) :=
  (c7_register_idempotent [1, 2] (.obj [("is_playing", .bool true)]) 3).2.1
    (by decide) (by rfl)

/-! ### Shared helper lemmas -/

theorem exceptBind_ok {α β ε : Type} (a : α) (f : α → Except ε β) :
    (Except.ok a >>= f) = f a := rfl

theorem exceptBind_error {α β ε : Type} (e : ε) (f : α → Except ε β) :
    ((Except.error e : Except ε α) >>= f) = .error e := rfl

theorem exceptPure {α ε : Type} (a : α) : (pure a : Except ε α) = .ok a := rfl

theorem JVal.isNull_iff (v : JVal) : v.isNull = true ↔ v = .null := by
  cases v <;> simp [JVal.isNull]

theorem pyGet_obj (fs : List (String × JVal)) (k : String) :
    pyGet (.obj fs) k = .ok (jfield (.obj fs) k) := rfl

/-- C8: when `toggle_shuffle` returns (no exception escaped): if both the
cache-first read and the fresh-fetch read of the shuffle state yield
`None`, and only then, no PUT is issued, and the call returns `None`;
otherwise the PUT carries the logical negation of the determined state and
the call returns that new state exactly when the PUT succeeded (returning
`None` on a failed PUT). -/
theorem c8_toggle_shuffle (latest fetch1 fetch2 : JVal) (put : ApiResult)
    (ret : JVal) (putted : Option Bool)
    (h : toggle_shuffle latest fetch1 fetch2 put = .ok (ret, putted)) :
    ((get_shuffle_state latest fetch1 latest = .ok .null ∧
      get_shuffle_state latest fetch2 .null = .ok .null) ↔ putted = none) ∧
    (putted = none → ret = .null) ∧
    (∀ b : Bool, putted = some b →
      ∃ v : JVal, v.isNull = false ∧ b = !v.truthy ∧
        (get_shuffle_state latest fetch1 latest = .ok v ∨
          (get_shuffle_state latest fetch1 latest = .ok .null ∧
           get_shuffle_state latest fetch2 .null = .ok v)) ∧
        ret = (if control_playback put then .bool b else .null)) := by
  unfold toggle_shuffle at h
  cases h1 : get_shuffle_state latest fetch1 latest with
  | error e => rw [h1, exceptBind_error] at h; exact absurd h (by simp)
  | ok v1 =>
    rw [h1] at h
    simp only [exceptBind_ok] at h
    by_cases hn1 : v1.isNull = true
    · rw [if_pos hn1] at h
      have hv1 : v1 = .null := (JVal.isNull_iff v1).mp hn1
      subst hv1
      cases h2 : get_shuffle_state latest fetch2 .null with
      | error e => rw [h2, exceptBind_error] at h; exact absurd h (by simp)
      | ok v2 =>
        rw [h2] at h
        simp only [exceptBind_ok] at h
        by_cases hn2 : v2.isNull = true
        · rw [if_pos hn2] at h
          have hv2 : v2 = .null := (JVal.isNull_iff v2).mp hn2
          subst hv2
          simp only [exceptPure, Except.ok.injEq, Prod.mk.injEq] at h
          refine ⟨iff_of_true ⟨rfl, rfl⟩ h.2.symm, fun _ => h.1.symm, ?_⟩
          intro b hb
          rw [← h.2] at hb
          exact absurd hb (by simp)
        · rw [if_neg hn2] at h
          simp only [exceptPure, exceptBind_ok, Except.ok.injEq, Prod.mk.injEq] at h
          refine ⟨?_, ?_, ?_⟩
          · rw [← h.2]
            simp only [Except.ok.injEq]
            constructor
            · rintro ⟨-, h22⟩
              exact absurd ((JVal.isNull_iff v2).mpr h22) hn2
            · intro hk; exact absurd hk (by simp)
          · intro hk; rw [← h.2] at hk; exact absurd hk (by simp)
          · intro b hb
            rw [← h.2, Option.some.injEq] at hb
            exact ⟨v2, by simpa using hn2, hb.symm, Or.inr ⟨rfl, rfl⟩,
              by rw [← h.1, hb]⟩
    · rw [if_neg hn1] at h
      simp only [exceptPure, exceptBind_ok, Except.ok.injEq, Prod.mk.injEq] at h
      rw [if_neg hn1] at h
      simp only [exceptPure, Except.ok.injEq, Prod.mk.injEq] at h
      refine ⟨?_, ?_, ?_⟩
      · rw [← h.2]
        simp only [Except.ok.injEq]
        constructor
        · rintro ⟨h11, -⟩
          exact absurd ((JVal.isNull_iff v1).mpr h11) hn1
        · intro hk; exact absurd hk (by simp)
      · intro hk; rw [← h.2] at hk; exact absurd hk (by simp)
      · intro b hb
        rw [← h.2, Option.some.injEq] at hb
        exact ⟨v1, by simpa using hn1, hb.symm, Or.inl rfl, by rw [← h.1, hb]⟩

/-- C8 witness: with no cached state and both fetches yielding no state,
`toggle_shuffle` issues no PUT and returns `None`; the undeterminable
condition of the claim and the no-PUT outcome coincide. -/
theorem c8_witness :
    (get_shuffle_state .null .null .null = .ok .null ∧
     get_shuffle_state .null .null .null = .ok .null) ↔ (none : Option Bool) = none :=
  (c8_toggle_shuffle .null .null .null .raised .null none (by rfl)).1

/-- If the stored refresh token is falsy, `refresh_access_token` aborts
before any network call, touching nothing. -/
theorem refresh_access_token_no_token (st : AuthState) (now : Int) (env : TokenReqResult)
    (h : (settingsGet st.settings "client_refresh_token").truthy = false) :
    refresh_access_token st now env = .ok (false, st, []) := by
  unfold refresh_access_token
  rw [h]
  rfl

/-- A `get_valid_token_string` call that reaches the refresh branch while
the refresh attempt fails without touching state returns `None`. -/
theorem get_valid_token_string_refresh_fails (st : AuthState) (now : Int)
    (env : TokenReqResult)
    (h : refresh_access_token st now env = .ok (false, st, [])) :
    get_valid_token_string_refresh st now env = .ok (.null, st, []) := by
  unfold get_valid_token_string_refresh
  rw [h]
  rfl

/-- C1: a `refresh_access_token` call whose token request ends in HTTP 400
with body `{"error": "invalid_grant"}` sets `client_refresh_token` to
`None` in settings, persists exactly that settings snapshot, leaves the
cached token object unchanged, and returns `False`; and afterwards, while
no valid cached Token exists, every `get_valid_token_string` call (under
any environment) returns `None` without persisting anything. -/
theorem c1_invalid_grant_clears_refresh (st : AuthState) (now : Int)
    (hrt : (settingsGet st.settings "client_refresh_token").truthy = true)
    (hid : (settingsGet st.settings "client_id").truthy = true) :
    ∃ st2 : AuthState,
      refresh_access_token st now
          (.reqError (some (400, .ok (.obj [("error", .str "invalid_grant")])))) =
        .ok (false, st2, [st2.settings]) ∧
      st2.settings "client_refresh_token" = some .null ∧
      st2.access_token_obj = st.access_token_obj ∧
      (∀ (now2 : Int) (env2 : TokenReqResult), hasValidToken st2 now2 = false →
        get_valid_token_string st2 now2 env2 = .ok (.null, st2, [])) := by
  refine ⟨{ st with settings := settingsSet st.settings "client_refresh_token" .null },
    ?_, ?_, rfl, ?_⟩
  · unfold refresh_access_token
    rw [hrt, hid]
    rfl
  · simp [settingsSet]
  · intro now2 env2 hv
    have hs : (settingsGet (settingsSet st.settings "client_refresh_token" .null)
        "client_refresh_token").truthy = false := by
      simp [settingsGet, settingsSet, JVal.truthy]
    have hrf := refresh_access_token_no_token
      { st with settings := settingsSet st.settings "client_refresh_token" .null }
      now2 env2 hs
    have hgr := get_valid_token_string_refresh_fails _ now2 env2 hrf
    unfold get_valid_token_string
    unfold hasValidToken at hv
    cases hc : st.access_token_obj with
    | none => simpa [hc] using hgr
    | some tok =>
      rw [hc] at hgr hv
      have hv2 : tok.is_valid now2 = false := by simpa using hv
      simpa [hv2] using hgr

/-- C1 witness: a concrete controller state with a stored refresh token
and client id, hit by the invalid-grant response. -/
theorem c1_witness :
    ∃ st2 : AuthState,
      refresh_access_token
          ⟨none, fun k => if k = "client_refresh_token" then some (.str "rt")
            else if k = "client_id" then some (.str "cid") else none⟩ 0
          (.reqError (some (400, .ok (.obj [("error", .str "invalid_grant")])))) =
        .ok (false, st2, [st2.settings]) ∧
      st2.settings "client_refresh_token" = some .null ∧
      st2.access_token_obj = none ∧
      (∀ (now2 : Int) (env2 : TokenReqResult), hasValidToken st2 now2 = false →
        get_valid_token_string st2 now2 env2 = .ok (.null, st2, [])) :=
  c1_invalid_grant_clears_refresh
    ⟨none, fun k => if k = "client_refresh_token" then some (.str "rt")
      else if k = "client_id" then some (.str "cid") else none⟩ 0
    (by simp [settingsGet, JVal.truthy]) (by simp [settingsGet, JVal.truthy])

/-- C3 counterexample: the claim promises that `exchange_code_for_token`
never lets an exception past its boundary for any input, but a 200
response whose body parses to a JSON string (not an object) makes
`_process_token_response` call `.get` on a non-dict, raising an
`AttributeError` that no `except` clause catches. -/
theorem c3_counterexample :
    exchange_code_for_token
        ⟨none, fun k => if k = "client_id" then some (.str "cid") else none⟩ 0
        (.str "c") (.success (.ok (.str "surprise"))) = .error () := by
  rfl

/-- `_process_token_response` on a dict body never raises. -/
theorem process_token_response_isOk (st : AuthState) (now : Int)
    (fields : List (String × JVal)) (g : String) :
    (process_token_response st now (.obj fields) g).isOk = true := by
  unfold process_token_response
  simp only [pyGet_obj, exceptBind_ok]
  by_cases h : (!(jfield (.obj fields) "access_token").truthy ||
      !(jfield (.obj fields) "expires_in").isPyInt) = true
  · rw [if_pos h]; rfl
  · rw [if_neg h]; rfl

/-- C3 (amended): on a 200 token response whose JSON body is an object
with a truthy `access_token`, an integer `expires_in` and a truthy
`refresh_token`, `exchange_code_for_token` stores the new Token (valid
immediately whenever `expires_in > 60`), overwrites the stored refresh
token, leaves no `client_authorization` entry in settings, persists
exactly the final settings snapshot once, and returns success; and no
exception escapes the call as long as any 200 body parses to a JSON
object (HTTP failures, request `ValueError`s and JSON parse failures are
all caught and become `False`). -/
theorem c3_exchange_amended :
    (∀ (st : AuthState) (now : Int) (code : JVal) (fields : List (String × JVal)),
      code.truthy = true →
      (settingsGet st.settings "client_id").truthy = true →
      (jfield (.obj fields) "access_token").truthy = true →
      (jfield (.obj fields) "expires_in").isPyInt = true →
      (jfield (.obj fields) "refresh_token").truthy = true →
      ∃ st2 : AuthState,
        exchange_code_for_token st now code (.success (.ok (.obj fields))) =
          .ok (true, st2, [st2.settings]) ∧
        st2.access_token_obj =
          some (Token.init (jfield (.obj fields) "access_token")
            (jfield (.obj fields) "expires_in").pyToInt now) ∧
        st2.settings "client_refresh_token" = some (jfield (.obj fields) "refresh_token") ∧
        st2.settings "client_authorization" = none ∧
        (60 < (jfield (.obj fields) "expires_in").pyToInt → hasValidToken st2 now = true)) ∧
    (∀ (st : AuthState) (now : Int) (code : JVal) (env : TokenReqResult),
      (∀ b : JVal, env = .success (.ok b) → b.isObj = true) →
      (exchange_code_for_token st now code env).isOk = true) := by
  constructor
  · intro st now code fields hcode hid hat hei hrt
    have hex : exchange_code_for_token st now code (.success (.ok (.obj fields))) =
        process_token_response st now (.obj fields) "authorization_code" := by
      unfold exchange_code_for_token
      rw [hcode, hid]
      rfl
    have hpr : process_token_response st now (.obj fields) "authorization_code" =
        (let st2 : AuthState :=
          { st with
            access_token_obj := some (Token.init (jfield (.obj fields) "access_token")
              (jfield (.obj fields) "expires_in").pyToInt now),
            settings := settingsSet st.settings "client_refresh_token"
              (jfield (.obj fields) "refresh_token") }
         let st3 : AuthState :=
          if settingsHas st2.settings "client_authorization" then
            { st2 with settings := settingsDel st2.settings "client_authorization" }
          else st2
         .ok (true, st3, [st3.settings])) := by
      unfold process_token_response
      simp only [pyGet_obj, exceptBind_ok, hat, hei, hrt, Bool.not_true, Bool.or_self,
        Bool.false_or, if_true, if_false]
      rfl
    rw [hex, hpr]
    by_cases hca : settingsHas (settingsSet st.settings "client_refresh_token"
        (jfield (.obj fields) "refresh_token")) "client_authorization" = true
    · refine ⟨AuthState.mk
        (some (Token.init (jfield (.obj fields) "access_token")
          (jfield (.obj fields) "expires_in").pyToInt now))
        (settingsDel (settingsSet st.settings "client_refresh_token"
          (jfield (.obj fields) "refresh_token")) "client_authorization"),
        ?_, rfl, ?_, ?_, ?_⟩
      · simp [hca]
      · simp [settingsDel, settingsSet]
      · simp [settingsDel]
      · intro he
        simp [hasValidToken, Token.is_valid, Token.init]
        omega
    · refine ⟨AuthState.mk
        (some (Token.init (jfield (.obj fields) "access_token")
          (jfield (.obj fields) "expires_in").pyToInt now))
        (settingsSet st.settings "client_refresh_token"
          (jfield (.obj fields) "refresh_token")),
        ?_, rfl, ?_, ?_, ?_⟩
      · simp [hca]
      · simp [settingsSet]
      · simpa [settingsHas] using hca
      · intro he
        simp [hasValidToken, Token.is_valid, Token.init]
        omega
  · intro st now code env henv
    unfold exchange_code_for_token
    by_cases hcode : code.truthy = true
    · rw [hcode]
      by_cases hid : (settingsGet st.settings "client_id").truthy = true
      · rw [hid]
        simp only [Bool.not_true]
        cases env with
        | success bodyE =>
          cases bodyE with
          | ok b =>
            have hobj := henv b rfl
            cases b with
            | obj fs => simpa using process_token_response_isOk st now fs "authorization_code"
            | null => exact absurd hobj (by simp [JVal.isObj])
            | bool x => exact absurd hobj (by simp [JVal.isObj])
            | int x => exact absurd hobj (by simp [JVal.isObj])
            | str x => exact absurd hobj (by simp [JVal.isObj])
            | arr x => exact absurd hobj (by simp [JVal.isObj])
          | error e => rfl
        | reqError r => rfl
        | valueError => rfl
      · have hi2 : (settingsGet st.settings "client_id").truthy = false := by
          simpa using hid
        rw [hi2]
        rfl
    · have hc2 : code.truthy = false := by simpa using hcode
      rw [hc2]
      rfl

/-- C3 witness: a concrete exchange with a valid 200 body stores the
token, rotates the refresh token, and clears the authorization code. -/
theorem c3_witness :
    ∃ st2 : AuthState,
      exchange_code_for_token
          ⟨none, fun k => if k = "client_id" then some (.str "cid")
            else if k = "client_authorization" then some (.str "ac") else none⟩ 0
          (.str "c")
          (.success (.ok (.obj [("access_token", .str "AT"), ("expires_in", .int 3600),
            ("refresh_token", .str "RT")]))) =
        .ok (true, st2, [st2.settings]) ∧
      st2.access_token_obj =
        some (Token.init
          (jfield (.obj [("access_token", .str "AT"), ("expires_in", .int 3600),
            ("refresh_token", .str "RT")]) "access_token")
          (jfield (.obj [("access_token", .str "AT"), ("expires_in", .int 3600),
            ("refresh_token", .str "RT")]) "expires_in").pyToInt 0) ∧
      st2.settings "client_refresh_token" =
        some (jfield (.obj [("access_token", .str "AT"), ("expires_in", .int 3600),
          ("refresh_token", .str "RT")]) "refresh_token") ∧
      st2.settings "client_authorization" = none ∧
      (60 < (jfield (.obj [("access_token", .str "AT"), ("expires_in", .int 3600),
        ("refresh_token", .str "RT")]) "expires_in").pyToInt →
        hasValidToken st2 0 = true) :=
  c3_exchange_amended.1
    ⟨none, fun k => if k = "client_id" then some (.str "cid")
      else if k = "client_authorization" then some (.str "ac") else none⟩ 0
    (.str "c") [("access_token", .str "AT"), ("expires_in", .int 3600),
      ("refresh_token", .str "RT")]
    (by decide) (by simp [settingsGet, JVal.truthy]) (by decide) (by decide) (by decide)

/-- On two available (non-`None`) states, the change condition of the code
coincides with the spec-worded change condition. -/
theorem changeTest_eq_specChanged (p n : JVal) (hp : p.isNull = false)
    (hn : n.isNull = false) : changeTest p n = specChanged p n := by
  unfold changeTest specChanged
  rw [hp, hn]
  simp

/-- C5 counterexample: the claim promises a notification round whenever
the states differ in `is_playing` (among others), but on two available
records whose `item` field is explicitly `null` the comparison raises
`AttributeError` (`None.get`), so nothing is notified: the tick errors
out before reaching the `is_playing` comparison. -/
theorem c5_counterexample :
    pyGet (.obj [("is_playing", .bool true), ("item", .null)]) "is_playing" =
        .ok (.bool true) ∧
    pyGet (.obj [("is_playing", .bool false), ("item", .null)]) "is_playing" =
        .ok (.bool false) ∧
    (JVal.obj [("is_playing", .bool true), ("item", .null)]).isNull = false ∧
    (JVal.obj [("is_playing", .bool false), ("item", .null)]).isNull = false ∧
    perform_update_and_notify (.obj [("is_playing", .bool true), ("item", .null)])
      (.obj [("is_playing", .bool false), ("item", .null)]) [7] = .error () := by
  exact ⟨rfl, rfl, rfl, rfl, rfl⟩

/-- C5 (amended): on every poll tick on which the multi-field comparison
evaluates without error, a notification round is triggered exactly when
the spec-worded change condition holds (the snapshots differ in
`timestamp`, `item.id`, `is_playing`, `shuffle_state`, `repeat_state`,
`device.id` or `device.volume_percent`, or exactly one of them is
unavailable); when triggered the cached state is replaced by the new one
and every registered subscriber is scheduled exactly once, in order, with
that new snapshot (`None` when the state became unavailable); otherwise
the cache and the subscribers are untouched. -/
theorem c5_update_notify_amended (latest new : JVal) (cbs : List Nat)
    (st2 : JVal) (sched : List (Nat × JVal))
    (h : perform_update_and_notify latest new cbs = .ok (st2, sched)) :
    ∃ c : Bool, specChanged latest new = .ok c ∧
      ((c = true ∧ st2 = new ∧ sched = cbs.map fun f => (f, new)) ∨
       (c = false ∧ st2 = latest ∧ sched = [])) := by
  unfold perform_update_and_notify at h
  split at h
  next hne =>
    have hnf : new.isNull = false := by simpa using hne
    cases hct : changeTest latest new with
    | error e => rw [hct] at h; exact absurd h (by simp)
    | ok b =>
      rw [hct] at h
      cases b with
      | true =>
        simp only [Except.ok.injEq, Prod.mk.injEq] at h
        refine ⟨true, ?_, Or.inl ⟨rfl, h.1.symm, h.2.symm⟩⟩
        by_cases hl : latest.isNull = true
        · unfold specChanged
          rw [hl, hnf]
          rfl
        · have hlf : latest.isNull = false := by simpa using hl
          rw [← changeTest_eq_specChanged latest new hlf hnf, hct]
      | false =>
        simp only [Except.ok.injEq, Prod.mk.injEq] at h
        refine ⟨false, ?_, Or.inr ⟨rfl, h.1.symm, h.2.symm⟩⟩
        have hlf : latest.isNull = false := by
          by_contra hc
          have hl : latest.isNull = true := by simpa using hc
          unfold changeTest at hct
          rw [hl] at hct
          simp at hct
        rw [← changeTest_eq_specChanged latest new hlf hnf, hct]
  next hne =>
    have hnt : new.isNull = true := by simpa using hne
    have hnn : new = .null := (JVal.isNull_iff new).mp hnt
    split at h
    next hle =>
      have hlf : latest.isNull = false := by simpa using hle
      simp only [Except.ok.injEq, Prod.mk.injEq] at h
      refine ⟨true, ?_, Or.inl ⟨rfl, by rw [← h.1, hnn], by rw [← h.2, hnn]⟩⟩
      unfold specChanged
      rw [hlf, hnt]
      rfl
    next hle =>
      have hlt : latest.isNull = true := by simpa using hle
      simp only [Except.ok.injEq, Prod.mk.injEq] at h
      refine ⟨false, ?_, Or.inr ⟨rfl, h.1.symm, h.2.symm⟩⟩
      unfold specChanged
      rw [hlt, hnt]
      rfl

/-- C5 witness: two snapshots that differ only in `device.volume_percent`
trigger exactly one notification round delivering the new snapshot to
both registered subscribers. -/
theorem c5_witness :
    ∃ c : Bool,
      specChanged
          (.obj [("timestamp", .int 1),
            ("device", .obj [("id", .str "d"), ("volume_percent", .int 30)])])
          (.obj [("timestamp", .int 1),
            ("device", .obj [("id", .str "d"), ("volume_percent", .int 50)])]) = .ok c ∧
      ((c = true ∧
        (.obj [("timestamp", .int 1),
          ("device", .obj [("id", .str "d"), ("volume_percent", .int 50)])] : JVal) =
          .obj [("timestamp", .int 1),
            ("device", .obj [("id", .str "d"), ("volume_percent", .int 50)])] ∧
        ([(1, .obj [("timestamp", .int 1),
            ("device", .obj [("id", .str "d"), ("volume_percent", .int 50)])]),
          (2, .obj [("timestamp", .int 1),
            ("device", .obj [("id", .str "d"), ("volume_percent", .int 50)])])] :
            List (Nat × JVal)) =
          [1, 2].map fun f => (f, .obj [("timestamp", .int 1),
            ("device", .obj [("id", .str "d"), ("volume_percent", .int 50)])])) ∨
       (c = false ∧
        (.obj [("timestamp", .int 1),
          ("device", .obj [("id", .str "d"), ("volume_percent", .int 50)])] : JVal) =
          .obj [("timestamp", .int 1),
            ("device", .obj [("id", .str "d"), ("volume_percent", .int 30)])] ∧
        ([(1, .obj [("timestamp", .int 1),
            ("device", .obj [("id", .str "d"), ("volume_percent", .int 50)])]),
          (2, .obj [("timestamp", .int 1),
            ("device", .obj [("id", .str "d"), ("volume_percent", .int 50)])])] :
            List (Nat × JVal)) = [])) :=
  c5_update_notify_amended
    (.obj [("timestamp", .int 1),
      ("device", .obj [("id", .str "d"), ("volume_percent", .int 30)])])
    (.obj [("timestamp", .int 1),
      ("device", .obj [("id", .str "d"), ("volume_percent", .int 50)])])
    [1, 2] _ _ (by rfl)

theorem isObj_iff (v : JVal) : v.isObj = true ↔ ∃ fs, v = .obj fs := by
  cases v <;> simp [JVal.isObj]

/-- `orE` cannot raise when neither disjunct raises. -/
theorem orE_isOk (x y : Except Unit Bool) (hx : x.isOk = true) (hy : y.isOk = true) :
    (orE x y).isOk = true := by
  cases x with
  | error e => exact absurd hx (by simp [Except.isOk, Except.toBool])
  | ok b => cases b with
    | true => rfl
    | false => exact hy

/-- A sub-field comparison cannot raise when, on both sides, the parent
key is absent or holds a dict. -/
theorem cmpSubField_isOk (a b : List (String × JVal)) (k sub : String)
    (ha : ∃ pfs, (a.lookup k).getD (JVal.obj []) = JVal.obj pfs)
    (hb : ∃ nfs, (b.lookup k).getD (JVal.obj []) = JVal.obj nfs) :
    (cmpSubField (.obj a) (.obj b) k sub).isOk = true := by
  obtain ⟨pfs, hpfs⟩ := ha
  obtain ⟨nfs, hnfs⟩ := hb
  unfold cmpSubField
  have e1 : pyGetD (.obj b) k (.obj []) = .ok (.obj nfs) := by rw [← hnfs]; rfl
  have e2 : pyGetD (.obj a) k (.obj []) = .ok (.obj pfs) := by rw [← hpfs]; rfl
  rw [e1]
  simp only [exceptBind_ok, pyGet_obj]
  rw [e2]
  simp only [exceptBind_ok, pyGet_obj]
  rfl

/-- What `comparison_safe` gives for the two guarded keys. -/
theorem comparison_safe_parts (fs : List (String × JVal))
    (h : comparison_safe (.obj fs) = true) :
    (∃ xs, (fs.lookup "item").getD (JVal.obj []) = JVal.obj xs) ∧
    (∃ xs, (fs.lookup "device").getD (JVal.obj []) = JVal.obj xs) := by
  unfold comparison_safe at h
  rw [Bool.and_eq_true] at h
  constructor
  · cases hl : fs.lookup "item" with
    | none => exact ⟨[], rfl⟩
    | some x =>
      have h1 := h.1
      rw [hl] at h1
      obtain ⟨xs, hxs⟩ := (isObj_iff x).mp h1
      exact ⟨xs, by rw [hxs]; rfl⟩
  · cases hl : fs.lookup "device" with
    | none => exact ⟨[], rfl⟩
    | some x =>
      have h2 := h.2
      rw [hl] at h2
      obtain ⟨xs, hxs⟩ := (isObj_iff x).mp h2
      exact ⟨xs, by rw [hxs]; rfl⟩

/-- C6 counterexample: the claim asserts the change comparison is total on
any pair of records, but a record whose `item` field has an unexpected
type (here an int) makes the comparison raise `AttributeError`. -/
theorem c6_counterexample :
    changeTest (.obj [("item", .int 5)]) (.obj [("item", .int 5)]) = .error () := by
  rfl

/-- C6 (amended): the art-url extraction never raises on any record (JSON
object) however malformed, and equals the spec-worded defensive chain —
`item.album.images[0].url` when every link is a dict (a nonempty list for
`images`), `None` otherwise; the polling change comparison is total on
every pair of records whose `item` and `device` entries, when present, are
dicts — but not on arbitrary records (see the counterexample). -/
theorem c6_defensive_reads_amended :
    (∀ latest fetch provided : JVal,
      (get_current_or_fresh_state latest fetch provided).isObj = true →
      get_playback_art_url latest fetch provided =
        .ok (specArtUrl (get_current_or_fresh_state latest fetch provided))) ∧
    (∀ pf nf : List (String × JVal),
      comparison_safe (.obj pf) = true → comparison_safe (.obj nf) = true →
      (changeTest (.obj pf) (.obj nf)).isOk = true) := by
  constructor
  · intro latest fetch provided hobj
    obtain ⟨fs, hfs⟩ := (isObj_iff _).mp hobj
    unfold get_playback_art_url specArtUrl
    rw [hfs]
    by_cases htr : (JVal.obj fs).truthy = true
    · simp only [htr, Bool.not_true, exceptPure, exceptBind_ok, pyGet_obj]
      cases hitem : jfield (.obj fs) "item" with
      | null => rfl
      | bool b => rfl
      | int n => rfl
      | str s => rfl
      | arr xs => rfl
      | obj ifs =>
        simp only [exceptPure, exceptBind_ok, pyGet_obj]
        cases halbum : jfield (.obj ifs) "album" with
        | null => rfl
        | bool b => rfl
        | int n => rfl
        | str s => rfl
        | arr xs => rfl
        | obj afs =>
          simp only [exceptPure, exceptBind_ok, pyGet_obj]
          cases himag : jfield (.obj afs) "images" with
          | null => rfl
          | bool b => rfl
          | int n => rfl
          | str s => rfl
          | obj xs => rfl
          | arr imgs =>
            cases imgs with
            | nil => rfl
            | cons img rest => cases img <;> rfl
    · have htf : (JVal.obj fs).truthy = false := by simpa using htr
      have hemp : fs.isEmpty = true := by
        unfold JVal.truthy at htf
        simpa using htf
      rw [List.isEmpty_iff] at hemp
      subst hemp
      rfl
  · intro pf nf hp hn
    have hcp := comparison_safe_parts pf hp
    have hcn := comparison_safe_parts nf hn
    have hct : changeTest (.obj pf) (.obj nf) =
        orE (cmpField (.obj pf) (.obj nf) "timestamp")
          (orE (cmpSubField (.obj pf) (.obj nf) "item" "id")
            (orE (cmpField (.obj pf) (.obj nf) "is_playing")
              (orE (cmpField (.obj pf) (.obj nf) "shuffle_state")
                (orE (cmpField (.obj pf) (.obj nf) "repeat_state")
                  (orE (cmpSubField (.obj pf) (.obj nf) "device" "id")
                    (cmpSubField (.obj pf) (.obj nf) "device" "volume_percent")))))) := rfl
    rw [hct]
    exact orE_isOk _ _ (by rfl)
      (orE_isOk _ _ (cmpSubField_isOk pf nf "item" "id" hcp.1 hcn.1)
        (orE_isOk _ _ (by rfl)
          (orE_isOk _ _ (by rfl)
            (orE_isOk _ _ (by rfl)
              (orE_isOk _ _ (cmpSubField_isOk pf nf "device" "id" hcp.2 hcn.2)
                (cmpSubField_isOk pf nf "device" "volume_percent" hcp.2 hcn.2))))))

/-- C6 witness: a fully well-formed record yields its art url through the
defensive chain, and the comparison is total on two safe records. -/
theorem c6_witness :
    get_playback_art_url .null .null
        (.obj [("item", .obj [("album", .obj [("images",
          .arr [.obj [("url", .str "http")]])])])]) =
      .ok (specArtUrl (.obj [("item", .obj [("album", .obj [("images",
        .arr [.obj [("url", .str "http")]])])])])) ∧
    (changeTest (.obj [("timestamp", .int 1)]) (.obj [("timestamp", .int 2)])).isOk = true :=
  ⟨c6_defensive_reads_amended.1 .null .null _ (by rfl),
   c6_defensive_reads_amended.2 [("timestamp", .int 1)] [("timestamp", .int 2)]
     (by rfl) (by rfl)⟩

/-- One-step unfolding of the retry loop body (one `for` iteration). -/
theorem retryGo_succ_eq (maxB : ℚ) (env : Nat → Attempt) (jit : Nat → ℚ)
    (r a : Nat) (backoff : ℚ) (last : Option RetryError) :
    retryGo maxB env jit (r + 1) a backoff last =
      match env a with
      | .value => (.val, [])
      | .resp s =>
        if 400 ≤ s ∧ s < 600 then
          if s < 500 ∧ s ≠ 429 then (.raised (.http s), [])
          else
            match r with
            | 0 => (.raised (.http s), [])
            | _ + 1 =>
              let rest := retryGo maxB env jit r (a + 1)
                (min (backoff * 2) maxB) (some (.http s))
              (rest.1, (backoff + jit a * backoff) :: rest.2)
        else (.ok s, [])
      | .transport =>
        match r with
        | 0 => (.raised .transport, [])
        | _ + 1 =>
          let rest := retryGo maxB env jit r (a + 1)
            (min (backoff * 2) maxB) (some .transport)
          (rest.1, (backoff + jit a * backoff) :: rest.2) := rfl

/-- An exhausted loop raises the recorded failure without sleeping. -/
theorem retryGo_zero_some (maxB : ℚ) (env : Nat → Attempt) (jit : Nat → ℚ)
    (a : Nat) (b : ℚ) (e : RetryError) :
    retryGo maxB env jit 0 a b (some e) = (.raised e, []) := rfl

/-- The final loop iteration never sleeps. -/
theorem retryGo_one_sleeps (maxB : ℚ) (env : Nat → Attempt) (jit : Nat → ℚ)
    (a : Nat) (b : ℚ) (last : Option RetryError) :
    (retryGo maxB env jit 1 a b last).2 = [] := by
  rw [retryGo_succ_eq]
  split
  · rfl
  · split
    · split
      · rfl
      · rfl
    · rfl
  · rfl

/-- With two iterations left, at most one sleep happens, of duration
`backoff + jitter`. -/
theorem retryGo_two_sleeps (maxB : ℚ) (env : Nat → Attempt) (jit : Nat → ℚ)
    (a : Nat) (b : ℚ) (last : Option RetryError) :
    (retryGo maxB env jit 2 a b last).2 = [] ∨
    (retryGo maxB env jit 2 a b last).2 = [b + jit a * b] := by
  rw [retryGo_succ_eq]
  split
  · exact Or.inl rfl
  · split
    · split
      · exact Or.inl rfl
      · right
        simp only [List.cons.injEq, true_and]
        exact retryGo_one_sleeps maxB env jit (a + 1) (min (b * 2) maxB) _
    · exact Or.inl rfl
  · right
    simp only [List.cons.injEq, true_and]
    exact retryGo_one_sleeps maxB env jit (a + 1) (min (b * 2) maxB) _

/-- With three iterations left, at most two sleeps happen, the first of
`b + jit`, the second of `min (b*2) maxB + jit`. -/
theorem retryGo_three_sleeps (maxB : ℚ) (env : Nat → Attempt) (jit : Nat → ℚ)
    (a : Nat) (b : ℚ) (last : Option RetryError) :
    (retryGo maxB env jit 3 a b last).2 = [] ∨
    (retryGo maxB env jit 3 a b last).2 = [b + jit a * b] ∨
    (retryGo maxB env jit 3 a b last).2 =
      [b + jit a * b,
        min (b * 2) maxB + jit (a + 1) * min (b * 2) maxB] := by
  rw [retryGo_succ_eq]
  split
  · exact Or.inl rfl
  · split
    · split
      · exact Or.inl rfl
      · rcases retryGo_two_sleeps maxB env jit (a + 1) (min (b * 2) maxB)
            (some (.http _)) with h | h
        · right; left
          simp only [List.cons.injEq, true_and]
          exact h
        · right; right
          simp only [List.cons.injEq, true_and]
          exact h
    · exact Or.inl rfl
  · rcases retryGo_two_sleeps maxB env jit (a + 1) (min (b * 2) maxB)
        (some .transport) with h | h
    · right; left
      simp only [List.cons.injEq, true_and]
      exact h
    · right; right
      simp only [List.cons.injEq, true_and]
      exact h

/-- C2: the retry wrapper (1) fails immediately with the error and zero
further sleeps when any attempt yields an HTTP status in 400–499 other
than 429; (2) passes a non-Response return value through untouched with
no retry; (3) under the default configuration, two transient failures
followed by a success succeed after exactly the two backoff sleeps
`1 + j0` and `2 + 2*j1` (backoff doubled, far below the 10s cap); (4) when
all three default attempts fail, the last failure is surfaced after the
same two sleeps; (5) under the default configuration with jitter samples
bounded by the jitter factor 0.1, the performed sleep durations are
always strictly increasing. -/
theorem c2_retry_wrapper :
    (∀ (maxB : ℚ) (env : Nat → Attempt) (jit : Nat → ℚ) (r a : Nat) (b : ℚ)
        (last : Option RetryError) (s : Nat),
      env a = .resp s → 400 ≤ s → s < 500 → s ≠ 429 →
      retryGo maxB env jit (r + 1) a b last = (.raised (.http s), [])) ∧
    (∀ (maxB : ℚ) (env : Nat → Attempt) (jit : Nat → ℚ) (r a : Nat) (b : ℚ)
        (last : Option RetryError),
      env a = .value → retryGo maxB env jit (r + 1) a b last = (.val, [])) ∧
    (∀ (env : Nat → Attempt) (jit : Nat → ℚ),
      env 0 = .transport → env 1 = .transport → env 2 = .resp 200 →
      spotify_api_request_handler {} env jit =
        (.ok 200, [1 + jit 0, 2 + jit 1 * 2])) ∧
    (∀ (env : Nat → Attempt) (jit : Nat → ℚ),
      env 0 = .transport → env 1 = .transport → env 2 = .resp 500 →
      spotify_api_request_handler {} env jit =
        (.raised (.http 500), [1 + jit 0, 2 + jit 1 * 2])) ∧
    (∀ (env : Nat → Attempt) (jit : Nat → ℚ),
      (∀ i, |jit i| ≤ 1 / 10) →
      List.Chain' (· < ·) (spotify_api_request_handler {} env jit).2) := by
  refine ⟨?_, ?_, ?_, ?_, ?_⟩
  · intro maxB env jit r a b last s he h4 h5 h429
    rw [retryGo_succ_eq, he]
    simp only [if_pos (show 400 ≤ s ∧ s < 600 from ⟨h4, by omega⟩),
      if_pos (show s < 500 ∧ s ≠ 429 from ⟨h5, h429⟩)]
  · intro maxB env jit r a b last he
    rw [retryGo_succ_eq, he]
  · intro env jit h0 h1 h2
    have h1b : env (0 + 1) = .transport := h1
    have h2b : env (0 + 1 + 1) = .resp 200 := h2
    show retryGo 10 env jit 3 0 1 none = _
    rw [show (3 : Nat) = 2 + 1 from rfl, retryGo_succ_eq, h0]
    show ((retryGo 10 env jit 2 (0 + 1) (min (1 * 2) 10) (some .transport)).1,
      ((1 : ℚ) + jit 0 * 1) ::
        (retryGo 10 env jit 2 (0 + 1) (min (1 * 2) 10) (some .transport)).2) = _
    rw [show (2 : Nat) = 1 + 1 from rfl, retryGo_succ_eq, h1b]
    show ((retryGo 10 env jit 1 (0 + 1 + 1)
        (min (min (1 * 2) 10 * 2) 10) (some .transport)).1,
      ((1 : ℚ) + jit 0 * 1) ::
        (min ((1 : ℚ) * 2) 10 + jit (0 + 1) * min ((1 : ℚ) * 2) 10) ::
        (retryGo 10 env jit 1 (0 + 1 + 1)
          (min (min (1 * 2) 10 * 2) 10) (some .transport)).2) = _
    have e200 : retryGo 10 env jit 1 (0 + 1 + 1)
        (min (min ((1 : ℚ) * 2) 10 * 2) 10) (some .transport) = (.ok 200, []) := by
      rw [show (1 : Nat) = 0 + 1 from rfl, retryGo_succ_eq, h2b]
      norm_num
    rw [e200]
    norm_num [min_def]
  · intro env jit h0 h1 h2
    have h1b : env (0 + 1) = .transport := h1
    have h2b : env (0 + 1 + 1) = .resp 500 := h2
    show retryGo 10 env jit 3 0 1 none = _
    rw [show (3 : Nat) = 2 + 1 from rfl, retryGo_succ_eq, h0]
    show ((retryGo 10 env jit 2 (0 + 1) (min (1 * 2) 10) (some .transport)).1,
      ((1 : ℚ) + jit 0 * 1) ::
        (retryGo 10 env jit 2 (0 + 1) (min (1 * 2) 10) (some .transport)).2) = _
    rw [show (2 : Nat) = 1 + 1 from rfl, retryGo_succ_eq, h1b]
    show ((retryGo 10 env jit 1 (0 + 1 + 1)
        (min (min (1 * 2) 10 * 2) 10) (some .transport)).1,
      ((1 : ℚ) + jit 0 * 1) ::
        (min ((1 : ℚ) * 2) 10 + jit (0 + 1) * min ((1 : ℚ) * 2) 10) ::
        (retryGo 10 env jit 1 (0 + 1 + 1)
          (min (min (1 * 2) 10 * 2) 10) (some .transport)).2) = _
    have e500 : retryGo 10 env jit 1 (0 + 1 + 1)
        (min (min ((1 : ℚ) * 2) 10 * 2) 10) (some .transport) =
        (.raised (.http 500), []) := by
      rw [show (1 : Nat) = 0 + 1 from rfl, retryGo_succ_eq, h2b]
      norm_num
    rw [e500]
    norm_num [min_def]
  · intro env jit hj
    have hb0 := abs_le.mp (hj 0)
    have hb1 := abs_le.mp (hj 1)
    show List.Chain' (· < ·) (retryGo 10 env jit 3 0 1 none).2
    rcases retryGo_three_sleeps 10 env jit 0 1 none with h | h | h
    · rw [h]
      exact List.chain'_nil
    · rw [h]
      exact List.chain'_singleton _
    · rw [h]
      refine List.chain'_pair.mpr ?_
      have hm : min ((1 : ℚ) * 2) 10 = 2 := by norm_num [min_def]
      rw [hm]
      have hji : jit (0 + 1) = jit 1 := rfl
      rw [hji]
      linarith [hb0.1, hb0.2, hb1.1, hb1.2]

/-- C2 witness: a call failing twice with transport errors then
succeeding on the third attempt succeeds under the default configuration
after exactly the sleeps 1s and 2s (zero jitter samples). -/
theorem c2_witness :
    spotify_api_request_handler {}
        (fun i => if i = 0 then .transport else if i = 1 then .transport else .resp 200)
        (fun _ => 0) = (.ok 200, [1, 2]) := by
  have h := c2_retry_wrapper.2.2.1
    (fun i => if i = 0 then .transport else if i = 1 then .transport else .resp 200)
    (fun _ => 0) (by norm_num) (by norm_num) (by norm_num)
  norm_num at h
  exact h
